import Mathlib

/-!
Shallow embedding of the `embedded-blink` hardware-abstraction layer of the
repository: the capability contract (`gpio_setup` / `gpio_write` / `sleep_ms`)
and its four backends (POSIX simulation, RP2040 SDK, ESP32 RTOS/SDK,
STM32F4 bare-metal registers), together with the POSIX driver loop.

Each backend is translated from its C source file.  Mutable globals become
explicit state records, console output and register writes become event
traces, and the host / vendor environment (nanosleep, the FreeRTOS tick
constant, the vendor GPIO driver verdict, BSRR silicon semantics) is passed
in as explicit parameters or modelled following its documented behaviour.
-/

namespace Vitte

/-! ## POSIX simulation backend — src/embedded-blink/boards/posix/runner.c -/

namespace Posix

/-- The two static globals of runner.c: `static int g_pin = 12;` and
`static int g_state = 0;`. -/
structure St where
  g_pin : Int
  g_state : Int
deriving DecidableEq, Repr

/-- Initial values of the globals at program start. -/
def init : St := ⟨12, 0⟩

/-- One line printed to stdout by the simulation backend: either the
`[posix] gpio_setup(pin=%d)` banner or a `LED[%d] = ON/OFF` transition line
(the Bool is `true` for ON). -/
inductive Ev where
  | setup (pin : Int)
  | led (pin : Int) (lit : Bool)
deriving DecidableEq, Repr

/-- Embedding of `gpio_setup` (runner.c lines 11-16): store the pin, reset
the tracked state to 0, print the setup banner. -/
def gpio_setup (pin : Int) (_s : St) : St × List Ev :=
  (⟨pin, 0⟩, [Ev.setup pin])

/-- Embedding of `gpio_write` (runner.c lines 18-25): the `pin` argument is
cast to void; only when `value != g_state` does it store the value and print
one `LED[g_pin] = ...` line (ON iff the new `g_state` is nonzero). -/
def gpio_write (pin value : Int) (s : St) : St × List Ev :=
  let _ := pin
  if value ≠ s.g_state then
    ({ s with g_state := value }, [Ev.led s.g_pin (value ≠ 0)])
  else
    (s, [])

/-- Embedding of `sleep_ms` (runner.c lines 27-30): the `timespec` handed to
`nanosleep`, as the pair `(tv_sec, tv_nsec)` computed with C truncating
division and remainder: `ts.tv_sec = ms/1000; ts.tv_nsec = (ms%1000)*1000000L`. -/
def sleep_timespec (ms : Int) : Int × Int :=
  (Int.tdiv ms 1000, Int.tmod ms 1000 * 1000000)

/-- Total nanoseconds of blocking requested from the host by `sleep_ms ms`:
`nanosleep` suspends for at least `tv_sec` seconds plus `tv_nsec`
nanoseconds (when the timespec is valid). -/
def requested_ns (ms : Int) : Int :=
  (sleep_timespec ms).1 * 1000000000 + (sleep_timespec ms).2

/-- Run a list of `gpio_write` calls (pin and value per call) from a state,
collecting the emitted trace. -/
def runWrites (s : St) (calls : List (Int × Int)) : St × List Ev :=
  calls.foldl
    (fun acc c =>
      let r := gpio_write c.1 c.2 acc.1
      (r.1, acc.2 ++ r.2))
    (s, [])

/-- Keep only the `LED[...] = ON/OFF` transition lines of a trace. -/
def transitions (evs : List Ev) : List Ev :=
  evs.filter fun e => match e with
    | .led _ _ => true
    | .setup _ => false

/-- Trace printed by the §8 scenario `configure(12); write(12,1);
write(12,0); write(12,1)` run on the simulation backend from program
start. -/
def scenarioTrace : List Ev :=
  let r := gpio_setup 12 init
  let w := runWrites r.1 [(12, 1), (12, 0), (12, 1)]
  r.2 ++ w.2

end Posix

/-! ## RP2040 backend — src/embedded-blink/boards/rp2040/vitte_ffi_rp2040.c -/

namespace Rp2040

/-- Backend state: the static global `led_pin` plus the RP2040 pad the SDK
calls act on, tracked as initialised / direction-out flags and the driven
level for the stored pin. -/
structure St where
  led_pin : Int
  inited : Bool
  dirOut : Bool
  level : Int
deriving DecidableEq, Repr

/-- Initial state: `static int led_pin = 25;`, pad untouched. -/
def init : St := ⟨25, false, false, 0⟩

/-- Embedding of `gpio_setup` (vitte_ffi_rp2040.c lines 5-10): store the pin,
`gpio_init`, set direction out, drive level 0. -/
def gpio_setup (pin : Int) (_s : St) : St :=
  ⟨pin, true, true, 0⟩

/-- Embedding of `gpio_write` (lines 12-15): the `pin` argument is cast to
void; `gpio_put(led_pin, value ? 1 : 0)` drives the stored pin. -/
def gpio_write (pin value : Int) (s : St) : St :=
  let _ := pin
  { s with level := if value ≠ 0 then 1 else 0 }

/-- Run a list of `gpio_write` calls (pin and value per call) from a state. -/
def runWrites (s : St) (calls : List (Int × Int)) : St :=
  calls.foldl (fun st c => gpio_write c.1 c.2 st) s

/-- Embedding of `sleep_ms` (lines 17-19): the body is the single statement
`sleep_ms(ms);`, which resolves to this very function, so each activation
only ever makes another activation of itself.  The `Nat` argument is the
remaining call-stack budget; `some ()` would mean the call returned to its
caller, `none` that the budget was exhausted without returning. -/
def sleep_ms : Nat → Int → Option Unit
  | 0, _ => none
  | fuel + 1, ms => sleep_ms fuel ms

end Rp2040

/-! ## ESP32 RTOS/SDK backend — src/examples/embedded-blink/boards/esp32/main.c -/

namespace Esp32

/-- Result of the vendor driver call `gpio_config`: `ESP_OK` or an error
code such as `ESP_ERR_INVALID_ARG` for an unresolvable pin. -/
inductive EspErr where
  | ok
  | invalidArg
deriving DecidableEq, Repr

/-- Backend state: the static global `led_pin`, whether the vendor driver
has accepted an output-mode configuration for it, and the level last pushed
through `gpio_set_level`. -/
structure St where
  led_pin : Int
  configured : Bool
  level : Int
deriving DecidableEq, Repr

/-- Initial state: `static gpio_num_t led_pin = GPIO_NUM_2;`. -/
def init : St := ⟨2, false, 0⟩

/-- Vendor-driver calls issued by the backend, with the status each returned
(`gpio_set_level` returns a status too; the backend discards both). -/
inductive Call where
  | config (pin : Int) (verdict : EspErr)
  | setLevel (pin : Int) (level : Int)
deriving DecidableEq, Repr

/-- Embedding of `gpio_setup` (esp32/main.c lines 8-19), parametric in the
vendor driver's pin-validity predicate `valid` (which pins `gpio_config`
accepts).  The C code stores the pin, builds `io_conf`, calls
`gpio_config(&io_conf)` WITHOUT examining its return status, then calls
`gpio_set_level(led_pin, 0)` unconditionally. -/
def gpio_setup (valid : Int → Bool) (pin : Int) (s : St) : St × List Call :=
  let s1 : St := { s with led_pin := pin }
  let verdict := if valid pin then EspErr.ok else EspErr.invalidArg
  let s2 : St := { s1 with configured := valid pin }
  let s3 : St := { s2 with level := 0 }
  (s3, [Call.config pin verdict, Call.setLevel pin 0])

/-- Embedding of `gpio_write` (lines 21-24): the `pin` argument is cast to
void; `gpio_set_level(led_pin, value ? 1 : 0)`. -/
def gpio_write (pin value : Int) (s : St) : St × List Call :=
  let _ := pin
  let lvl : Int := if value ≠ 0 then 1 else 0
  ({ s with level := lvl }, [Call.setLevel s.led_pin lvl])

/-- Run a list of `gpio_write` calls from a state, collecting the vendor
calls issued. -/
def runWrites (s : St) (calls : List (Int × Int)) : St × List Call :=
  calls.foldl
    (fun acc c =>
      let r := gpio_write c.1 c.2 acc.1
      (r.1, acc.2 ++ r.2))
    (s, [])

/-- Embedding of `sleep_ms` (lines 26-28): the tick count handed to
`vTaskDelay` is `ms / portTICK_PERIOD_MS` with C truncating division;
`tick` is the FreeRTOS configuration constant `portTICK_PERIOD_MS`
(milliseconds per scheduler tick). -/
def sleep_ticks (tick : Int) (ms : Int) : Int :=
  Int.tdiv ms tick

/-- Milliseconds of suspension obtained from `vTaskDelay`: the scheduler
suspends the task for the requested number of ticks, each lasting `tick`
milliseconds. -/
def suspension_ms (tick : Int) (ms : Int) : Int :=
  sleep_ticks tick ms * tick

end Esp32

/-! ## STM32F4 bare-metal backend — src/examples/embedded-blink/boards/stm32f4/gpio.c -/

namespace Stm32

/-- The three memory-mapped registers the backend touches: the AHB1 clock
enable register `RCC_AHB1ENR` and the GPIOD mode and bit-set/reset
registers. -/
inductive Reg where
  | rcc_ahb1enr
  | gpiod_moder
  | gpiod_bsrr
deriving DecidableEq, Repr

/-- All 32 bits set, for modelling a C bitwise complement `~v` on
`uint32_t` as `mask32 ^^^ v`. -/
def mask32 : Nat := 2 ^ 32 - 1

/-- Silicon effect of writing `v` to GPIOD_BSRR on the output data latch:
bits 0-15 of `v` set the corresponding output bits, bits 16-31 reset them,
and a set bit takes priority over its reset bit.  Set and reset act on
independent write-only bits, never a read-modify-write of the latch. -/
def bsrrEffect (odr v : Nat) : Nat :=
  (odr &&& (mask32 ^^^ ((v >>> 16) &&& 0xFFFF))) ||| (v &&& 0xFFFF)

/-- Backend state: the static global `led_pin` plus the contents of the
three registers (the BSRR has no contents of its own; `odr` is the output
data latch its writes act on). -/
structure St where
  led_pin : Int
  rcc : Nat
  moder : Nat
  odr : Nat
deriving DecidableEq, Repr

/-- Apply one recorded register write to the state. -/
def applyWrite (s : St) : Reg × Nat → St
  | (Reg.rcc_ahb1enr, v) => { s with rcc := v }
  | (Reg.gpiod_moder, v) => { s with moder := v }
  | (Reg.gpiod_bsrr, v) => { s with odr := bsrrEffect s.odr v }

/-- Embedding of `gpio_setup` (stm32f4/gpio.c lines 17-26): the `pin`
argument is cast to void and `led_pin = 12`; then, in program order,
`RCC_AHB1ENR |= (1u << 3)` (a read-modify-write recorded as the single
store it performs), `GPIOD_MODER &= ~(3u << 24)`, `GPIOD_MODER |= (1u << 24)`,
and `GPIOD_BSRR = (1u << 28)`.  Returns the final state and the sequence of
register stores in the order the code issues them. -/
def gpio_setup (pin : Int) (s : St) : St × List (Reg × Nat) :=
  let _ := pin
  let s0 : St := { s with led_pin := 12 }
  let v1 := s0.rcc ||| (1 <<< 3)
  let s1 := applyWrite s0 (Reg.rcc_ahb1enr, v1)
  let v2 := s1.moder &&& (mask32 ^^^ (3 <<< 24))
  let s2 := applyWrite s1 (Reg.gpiod_moder, v2)
  let v3 := s2.moder ||| (1 <<< 24)
  let s3 := applyWrite s2 (Reg.gpiod_moder, v3)
  let v4 := (1 : Nat) <<< 28
  let s4 := applyWrite s3 (Reg.gpiod_bsrr, v4)
  (s4, [(Reg.rcc_ahb1enr, v1), (Reg.gpiod_moder, v2),
        (Reg.gpiod_moder, v3), (Reg.gpiod_bsrr, v4)])

/-- Embedding of `gpio_write` (lines 28-31): the `pin` argument is cast to
void; a nonzero `value` stores the set bit `1 << 12` to BSRR, a zero one the
reset bit `1 << 28`. -/
def gpio_write (pin value : Int) (s : St) : St × List (Reg × Nat) :=
  let _ := pin
  let v : Nat := if value ≠ 0 then 1 <<< 12 else 1 <<< 28
  (applyWrite s (Reg.gpiod_bsrr, v), [(Reg.gpiod_bsrr, v)])

/-- The line actually driven on pin 12: bit 12 of the output data latch. -/
def pin12High (s : St) : Bool := s.odr.testBit 12

/-- Run a list of `gpio_write` calls from a state, collecting the recorded
register stores. -/
def runWrites (s : St) (calls : List (Int × Int)) : St × List (Reg × Nat) :=
  calls.foldl
    (fun acc c =>
      let r := gpio_write c.1 c.2 acc.1
      (r.1, acc.2 ++ r.2))
    (s, [])

/-- In a recorded store sequence, some store to the clock-enable register
that sets bit 3 (the GPIOD clock-enable bit) occurs strictly before every
store to the mode register. -/
def clockBeforeModer (evs : List (Reg × Nat)) : Prop :=
  ∀ j (hj : j < evs.length), (evs.get ⟨j, hj⟩).1 = Reg.gpiod_moder →
    ∃ i, ∃ hi : i < evs.length, i < j ∧
      (evs.get ⟨i, hi⟩).1 = Reg.rcc_ahb1enr ∧
      ((evs.get ⟨i, hi⟩).2).testBit 3 = true

end Stm32

/-! ## The POSIX driver loop — src/embedded-blink/boards/posix/runner.c, main -/

namespace Posix

/-- C whitespace characters skipped by `atoi`. -/
def isSpace (c : Char) : Bool :=
  c = ' ' || c = '\t' || c = '\n' || c = '\x0b' || c = '\x0c' || c = '\r'

/-- Decimal digit test. -/
def isDigit (c : Char) : Bool := '0' ≤ c && c ≤ '9'

/-- Accumulate the leading decimal digits of a character list onto `acc`. -/
def digitsAcc : List Char → Int → Int
  | [], acc => acc
  | c :: cs, acc =>
      if isDigit c then digitsAcc cs (acc * 10 + (c.toNat - '0'.toNat : Nat))
      else acc

/-- Model of the C standard library `atoi` used by `main` (runner.c line
34), on the argument string as a character list: skip leading whitespace,
accept an optional sign, convert the leading run of decimal digits, and
yield 0 when no digits follow.  Overflow is not modelled (the inputs of
interest are small). -/
def atoi (s : List Char) : Int :=
  let t := s.dropWhile isSpace
  match t with
  | '-' :: rest => -(digitsAcc rest 0)
  | '+' :: rest => digitsAcc rest 0
  | _ => digitsAcc t 0

/-- Embedding of the period computation in `main` (runner.c lines 33-34):
`period` starts at 500 and, when a first command-line argument is present
(`argc > 1`), is overwritten by `atoi(argv[1])` with no validation.  `args`
is the list of arguments after the program name. -/
def mainPeriod (args : List (List Char)) : Int :=
  match args with
  | [] => 500
  | a :: _ => atoi a

/-- One call the driver loop makes against the capability contract. -/
inductive LoopCall where
  | write (pin value : Int)
  | sleep (ms : Int)
deriving DecidableEq, Repr

/-- One iteration of the infinite loop in `main` (runner.c lines 36-41):
`gpio_write(12,1); sleep_ms(period); gpio_write(12,0); sleep_ms(period)`. -/
def loopIteration (period : Int) : List LoopCall :=
  [LoopCall.write 12 1, LoopCall.sleep period,
   LoopCall.write 12 0, LoopCall.sleep period]

end Posix

/-! ## Helper lemmas -/

theorem lor_lor_self (a b : Nat) : (a ||| b) ||| b = a ||| b := by
  apply Nat.eq_of_testBit_eq
  intro i
  simp only [Nat.testBit_lor]
  cases a.testBit i <;> cases b.testBit i <;> rfl

theorem land_lor_round (o m b : Nat) :
    (((o &&& m) ||| b) &&& m) ||| b = (o &&& m) ||| b := by
  apply Nat.eq_of_testBit_eq
  intro i
  simp only [Nat.testBit_lor, Nat.testBit_land]
  cases o.testBit i <;> cases m.testBit i <;> cases b.testBit i <;> rfl

theorem lor_bit3 (r : Nat) : (r ||| (1 <<< 3)).testBit 3 = true := by
  simp only [Nat.testBit_lor]
  have h : ((1 <<< 3 : Nat)).testBit 3 = true := by decide
  rw [h, Bool.or_true]

theorem bsrr_reset_bit12 (odr : Nat) :
    (Stm32.bsrrEffect odr 268435456).testBit 12 = false := by
  unfold Stm32.bsrrEffect
  rw [Nat.testBit_lor, Nat.testBit_land]
  have h2 : ((268435456 : Nat) &&& 0xFFFF).testBit 12 = false := by decide
  have h3 : (Stm32.mask32 ^^^ (((268435456 : Nat)) >>> 16 &&& 0xFFFF)).testBit 12 = false := by
    decide
  rw [h2, h3, Bool.and_false, Bool.or_false]

theorem bsrr_set_bit12 (odr : Nat) :
    (Stm32.bsrrEffect odr 4096).testBit 12 = true := by
  unfold Stm32.bsrrEffect
  rw [Nat.testBit_lor]
  have h2 : ((4096 : Nat) &&& 0xFFFF).testBit 12 = true := by decide
  rw [h2, Bool.or_true]

theorem posix_write_g_state (p v : Int) (s : Posix.St) :
    (Posix.gpio_write p v s).1.g_state = v := by
  by_cases h : v = s.g_state
  · simp [Posix.gpio_write, h]
  · simp [Posix.gpio_write, h]

theorem stm32_write_pin12 (p v : Int) (s : Stm32.St) :
    Stm32.pin12High (Stm32.gpio_write p v s).1 = decide (v ≠ 0) := by
  by_cases h : v = 0
  · simp [Stm32.gpio_write, Stm32.pin12High, Stm32.applyWrite, h, bsrr_reset_bit12]
  · simp [Stm32.gpio_write, Stm32.pin12High, Stm32.applyWrite, h, bsrr_set_bit12]

theorem posix_runWrites_append (s : Posix.St) (l : List (Int × Int)) (c : Int × Int) :
    (Posix.runWrites s (l ++ [c])).1 =
      (Posix.gpio_write c.1 c.2 (Posix.runWrites s l).1).1 := by
  simp [Posix.runWrites, List.foldl_append]

theorem rp2040_runWrites_append (s : Rp2040.St) (l : List (Int × Int)) (c : Int × Int) :
    Rp2040.runWrites s (l ++ [c]) =
      Rp2040.gpio_write c.1 c.2 (Rp2040.runWrites s l) := by
  simp [Rp2040.runWrites, List.foldl_append]

theorem esp32_runWrites_append (s : Esp32.St) (l : List (Int × Int)) (c : Int × Int) :
    (Esp32.runWrites s (l ++ [c])).1 =
      (Esp32.gpio_write c.1 c.2 (Esp32.runWrites s l).1).1 := by
  simp [Esp32.runWrites, List.foldl_append]

theorem stm32_runWrites_append (s : Stm32.St) (l : List (Int × Int)) (c : Int × Int) :
    (Stm32.runWrites s (l ++ [c])).1 =
      (Stm32.gpio_write c.1 c.2 (Stm32.runWrites s l).1).1 := by
  simp [Stm32.runWrites, List.foldl_append]

theorem tdiv_coe (m k : Nat) : Int.tdiv (m : Int) (k : Int) = ((m / k : Nat) : Int) := rfl

theorem tmod_coe (m k : Nat) : Int.tmod (m : Int) (k : Int) = ((m % k : Nat) : Int) := rfl

theorem stm32_setup_events_shape (a b c d : Nat) (ha : a.testBit 3 = true) :
    Stm32.clockBeforeModer
      [(Stm32.Reg.rcc_ahb1enr, a), (Stm32.Reg.gpiod_moder, b),
       (Stm32.Reg.gpiod_moder, c), (Stm32.Reg.gpiod_bsrr, d)] := by
  intro j hj h
  rcases j with _ | j
  · simp at h
  · exact ⟨0, by simp, by omega, rfl, ha⟩

/-! ## Claim theorems -/

/-- C1: the claim says `delay` returns to its caller for every backend and
every duration, in particular the RP2040 `sleep_ms`.  The RP2040 wrapper's
body is the call `sleep_ms(ms)`, which resolves to the wrapper itself, so no
call-stack budget ever suffices for the call to return: the call diverges
for every `ms`, including every `ms ≥ 0`. -/
theorem c1_rp2040_sleep_never_returns (fuel : Nat) (ms : Int) :
    Rp2040.sleep_ms fuel ms = none := by
  induction fuel with
  | zero => rfl
  | succ n ih => simpa [Rp2040.sleep_ms] using ih

/-- C2 counterexample: with a vendor driver that resolves only pin 2, the
ESP32 backend's `gpio_setup(99)` receives the `ESP_ERR_INVALID_ARG` verdict
yet still proceeds to drive the pin (`gpio_set_level` is issued after the
rejected `gpio_config`) with no ConfigurationError signalled; and the
bare-metal backend treats the argument 99 exactly as it treats 12, silently
configuring line 12. -/
theorem c2_unresolvable_pin_counterexample :
    (Esp32.gpio_setup (fun p => p == 2) 99 Esp32.init).2 =
      [Esp32.Call.config 99 Esp32.EspErr.invalidArg, Esp32.Call.setLevel 99 0] ∧
    (Esp32.gpio_setup (fun p => p == 2) 99 Esp32.init).1.configured = false ∧
    (Esp32.gpio_setup (fun p => p == 2) 99 Esp32.init).1.level = 0 ∧
    Stm32.gpio_setup 99 ⟨12, 0, 0, 0⟩ = Stm32.gpio_setup 12 ⟨12, 0, 0, 0⟩ := by
  decide

/-- C2 amended: neither backend signals a ConfigurationError for an
unresolvable pin: the RTOS/SDK backend discards the vendor driver's verdict
and proceeds to drive the line regardless of whether the driver accepted the
pin, and the bare-metal backend ignores the pin argument entirely, always
configuring line 12. -/
theorem c2_configure_no_error_amended (valid : Int → Bool) (pin : Int)
    (sE : Esp32.St) (sS : Stm32.St) :
    (Esp32.gpio_setup valid pin sE).2 =
      [Esp32.Call.config pin (if valid pin then Esp32.EspErr.ok else Esp32.EspErr.invalidArg),
       Esp32.Call.setLevel pin 0] ∧
    (Esp32.gpio_setup valid pin sE).1.level = 0 ∧
    (Stm32.gpio_setup pin sS).1.led_pin = 12 ∧
    Stm32.gpio_setup pin sS = Stm32.gpio_setup 12 sS :=
  ⟨rfl, rfl, rfl, rfl⟩

/-- C3 counterexample: with the common 100 Hz FreeRTOS configuration
(`portTICK_PERIOD_MS = 10`), the RTOS backend's `sleep_ms(5)` truncates to
`vTaskDelay(0)` — a suspension of 0 ms, strictly less than the requested
5 ms, so the conversion does not yield a suspension of at least `d`
milliseconds. -/
theorem c3_tick_truncation_counterexample :
    Esp32.sleep_ticks 10 5 = 0 ∧ Esp32.suspension_ms 10 5 = 0 ∧
    ¬(5 : Int) ≤ Esp32.suspension_ms 10 5 := by
  decide

/-- C3 amended: the simulation backend's `sleep_ms` requests exactly
`ms * 10^6` nanoseconds of blocking from the host's `nanosleep` for every
`ms ≥ 0` (so with the host's at-least guarantee it never returns early),
while the RTOS backend's conversion of milliseconds to scheduler ticks
truncates, so the resulting suspension is at most the requested duration
and can fall short of it. -/
theorem c3_delay_bounds_amended (n t ms : Nat) :
    Posix.requested_ns (n : Int) = (n : Int) * 1000000 ∧
    Esp32.suspension_ms ((t + 1 : Nat) : Int) ((ms : Nat) : Int) ≤ (ms : Int) := by
  constructor
  · have h1 : Int.tdiv (n : Int) 1000 = ((n / 1000 : Nat) : Int) := rfl
    have h2 : Int.tmod (n : Int) 1000 = ((n % 1000 : Nat) : Int) := rfl
    simp only [Posix.requested_ns, Posix.sleep_timespec, h1, h2]
    push_cast
    omega
  · show Int.tdiv (ms : Int) ((t + 1 : Nat) : Int) * _ ≤ _
    rw [tdiv_coe]
    exact_mod_cast Nat.div_mul_le_self ms (t + 1)

/-- C4: in every backend, immediately after `gpio_setup` the tracked logical
state is deasserted and the output line is driven low: the simulation
backend's `g_state` is 0, the RP2040 and ESP32 backends drive level 0 on the
stored pin, and the bare-metal backend's set/reset write leaves line 12
low. -/
theorem c4_configure_deasserts (pin : Int) (valid : Int → Bool)
    (sP : Posix.St) (sR : Rp2040.St) (sE : Esp32.St) (sS : Stm32.St) :
    (Posix.gpio_setup pin sP).1.g_state = 0 ∧
    (Rp2040.gpio_setup pin sR).level = 0 ∧
    (Esp32.gpio_setup valid pin sE).1.level = 0 ∧
    Stm32.pin12High (Stm32.gpio_setup 12 sS).1 = false := by
  refine ⟨rfl, rfl, rfl, ?_⟩
  simp [Stm32.gpio_setup, Stm32.applyWrite, Stm32.pin12High, bsrr_reset_bit12]

/-- C5: the simulation backend emits one trace event per actual transition
and none otherwise: the §8 scenario `configure(12); write(12,1);
write(12,0); write(12,1)` emits exactly the three transition events ON, OFF,
ON in order, `configure` itself emits no transition event, and two
consecutive identical writes emit at most one transition event from any
state. -/
theorem c5_simulation_transition_events :
    Posix.transitions Posix.scenarioTrace =
      [Posix.Ev.led 12 true, Posix.Ev.led 12 false, Posix.Ev.led 12 true] ∧
    (∀ pin : Int, ∀ s : Posix.St, Posix.transitions (Posix.gpio_setup pin s).2 = []) ∧
    (∀ (p l : Int) (s : Posix.St),
      (Posix.transitions (Posix.runWrites s [(p, l), (p, l)]).2).length ≤ 1) := by
  refine ⟨by decide, fun pin s => rfl, fun p l s => ?_⟩
  by_cases h : l = s.g_state
  · simp [Posix.runWrites, Posix.gpio_write, Posix.transitions, h]
  · simp [Posix.runWrites, Posix.gpio_write, Posix.transitions, h]

/-- C6: `gpio_setup` on the bare-metal backend issues its register stores in
the order clock-enable, mode (twice: clear then set), set/reset — and in the
recorded store sequence a clock-enable store setting bit 3 strictly precedes
every mode-register store. -/
theorem c6_clock_enable_before_moder (pin : Int) (s : Stm32.St) :
    ((Stm32.gpio_setup pin s).2).map Prod.fst =
      [Stm32.Reg.rcc_ahb1enr, Stm32.Reg.gpiod_moder,
       Stm32.Reg.gpiod_moder, Stm32.Reg.gpiod_bsrr] ∧
    Stm32.clockBeforeModer (Stm32.gpio_setup pin s).2 := by
  exact ⟨rfl, stm32_setup_events_shape _ _ _ _ (lor_bit3 s.rcc)⟩

/-- C7: last-write-wins in every backend: after any sequence of
`gpio_write` calls ending in a write of `v`, the simulation backend's
tracked state is exactly `v`, the RP2040 and ESP32 backends drive level 1
on the stored pin iff `v ≠ 0`, and the bare-metal backend's line 12 is high
iff `v ≠ 0`. -/
theorem c7_last_write_wins (calls : List (Int × Int)) (p v : Int)
    (sP : Posix.St) (sR : Rp2040.St) (sE : Esp32.St) (sS : Stm32.St) :
    (Posix.runWrites sP (calls ++ [(p, v)])).1.g_state = v ∧
    (Rp2040.runWrites sR (calls ++ [(p, v)])).level = (if v ≠ 0 then 1 else 0) ∧
    (Esp32.runWrites sE (calls ++ [(p, v)])).1.level = (if v ≠ 0 then 1 else 0) ∧
    Stm32.pin12High (Stm32.runWrites sS (calls ++ [(p, v)])).1 = decide (v ≠ 0) := by
  refine ⟨?_, ?_, ?_, ?_⟩
  · rw [posix_runWrites_append]
    exact posix_write_g_state p v _
  · rw [rp2040_runWrites_append]
    rfl
  · rw [esp32_runWrites_append]
    rfl
  · rw [stm32_runWrites_append]
    exact stm32_write_pin12 p v _

/-- C8: `gpio_setup` is idempotent on the backend state in every backend:
running it twice with the same pin leaves the globals, the driven level and
(for the bare-metal backend) the register block exactly as one run does. -/
theorem c8_configure_idempotent (pin : Int) (valid : Int → Bool)
    (sP : Posix.St) (sR : Rp2040.St) (sE : Esp32.St) (sS : Stm32.St) :
    (Posix.gpio_setup pin (Posix.gpio_setup pin sP).1).1 = (Posix.gpio_setup pin sP).1 ∧
    Rp2040.gpio_setup pin (Rp2040.gpio_setup pin sR) = Rp2040.gpio_setup pin sR ∧
    (Esp32.gpio_setup valid pin (Esp32.gpio_setup valid pin sE).1).1 =
      (Esp32.gpio_setup valid pin sE).1 ∧
    (Stm32.gpio_setup pin (Stm32.gpio_setup pin sS).1).1 = (Stm32.gpio_setup pin sS).1 := by
  refine ⟨rfl, rfl, rfl, ?_⟩
  simp only [Stm32.gpio_setup, Stm32.applyWrite, Stm32.bsrrEffect, Stm32.St.mk.injEq]
  refine ⟨trivial, ?_, ?_, ?_⟩
  · exact lor_lor_self sS.rcc (1 <<< 3)
  · exact land_lor_round sS.moder _ _
  · exact land_lor_round sS.odr _ _

/-- C9: in every backend `gpio_write` ignores its pin argument: the result
is the same for any two pin arguments, and the write acts on (and, in the
simulation backend, is trace-tagged with) the backend's stored pin, never
the argument. -/
theorem c9_write_acts_on_stored_pin (p q value : Int)
    (sP : Posix.St) (sR : Rp2040.St) (sE : Esp32.St) (sS : Stm32.St) :
    Posix.gpio_write p value sP = Posix.gpio_write q value sP ∧
    ((Posix.gpio_write p value sP).2 = [] ∨
      (Posix.gpio_write p value sP).2 = [Posix.Ev.led sP.g_pin (decide (value ≠ 0))]) ∧
    Rp2040.gpio_write p value sR = Rp2040.gpio_write q value sR ∧
    Esp32.gpio_write p value sE = Esp32.gpio_write q value sE ∧
    (Esp32.gpio_write p value sE).2 =
      [Esp32.Call.setLevel sE.led_pin (if value ≠ 0 then 1 else 0)] ∧
    Stm32.gpio_write p value sS = Stm32.gpio_write q value sS := by
  refine ⟨rfl, ?_, rfl, rfl, rfl, rfl⟩
  by_cases h : value = sP.g_state
  · left
    simp [Posix.gpio_write, h]
  · right
    simp [Posix.gpio_write, h]

/-- C10: the POSIX driver loop forwards `atoi(argv[1])` to `sleep_ms`
unvalidated: the argument `-5` makes the blink period -5, which the loop
passes to `sleep_ms` (a negative duration, and one whose timespec has a
negative `tv_nsec`), and the non-numeric argument `abc` makes the period 0,
which is not a positive millisecond count either. -/
theorem c10_unvalidated_blink_period :
    Posix.mainPeriod [['-', '5']] = -5 ∧
    Posix.loopIteration (Posix.mainPeriod [['-', '5']]) =
      [Posix.LoopCall.write 12 1, Posix.LoopCall.sleep (-5),
       Posix.LoopCall.write 12 0, Posix.LoopCall.sleep (-5)] ∧
    (Posix.sleep_timespec (-5)).2 < 0 ∧
    Posix.mainPeriod [['a', 'b', 'c']] = 0 := by
  decide

end Vitte
